import Mathlib

/-!
Verification development for a batch MLOps pipeline (run.py, generate_data.py).

The pipeline reads an OHLCV table, computes a trailing rolling mean over the
close column, derives a 0/1 crossover signal, and emits a JSON metrics record;
any failure is converted to an error record and exit code 1.

Embedding conventions:
  - numeric columns are modelled as exact rationals (the source uses float64);
  - a table is a list of named columns;
  - YAML scalars are an inductive with a separate boolean constructor, because
    in Python a bool is a subtype of int and passes isinstance checks for int;
  - file-system inputs (existence, byte size, parsed content) are fields of
    explicit input structures, and the orchestrator main is a pure function of
    those structures plus the two monotonic-clock readings;
  - quote characters inside source error messages are dropped.
-/

/-- JSON scalar values appearing in the output metrics record. -/
inductive Json where
  | str (s : String)
  | int (n : ℤ)
  | rat (q : ℚ)
  deriving DecidableEq

/-- Record written by write_output: an ordered list of key/value pairs,
mirroring the Python dict literals in compute_metrics and build_error_output. -/
abbrev Record := List (String × Json)

/-- Lookup of a field in a record, mirroring dict access. -/
def lookupJson (rec : Record) (key : String) : Option Json :=
  (rec.find? (fun kv => kv.1 == key)).map (fun kv => kv.2)

/-- Round-half-to-even on rationals, the tie-breaking rule of Python round
and numpy round (the source rounds idealized to exact rationals). -/
def roundHalfEven (q : ℚ) : ℤ :=
  if q - ⌊q⌋ < 1/2 then ⌊q⌋
  else if 1/2 < q - ⌊q⌋ then ⌊q⌋ + 1
  else if ⌊q⌋ % 2 = 0 then ⌊q⌋ else ⌊q⌋ + 1

/-- Python round(x, d): round to d decimal places, ties to even. -/
def pyRound (q : ℚ) (d : ℕ) : ℚ :=
  (roundHalfEven (q * (10 : ℚ) ^ d)) / (10 : ℚ) ^ d

/-- Python int() applied to a real quantity: truncation toward zero. -/
def pyTrunc (q : ℚ) : ℤ :=
  if 0 ≤ q then ⌊q⌋ else -⌊-q⌋

/-- A pandas DataFrame: ordered named columns of rationals. -/
structure Table where
  cols : List (String × List ℚ)
  deriving DecidableEq

/-- len(df): number of rows, the length of the first column (0 if no columns). -/
def Table.nrows (t : Table) : ℕ :=
  match t.cols with
  | [] => 0
  | c :: _ => c.2.length

/-- df.columns: the ordered column names. -/
def Table.columns (t : Table) : List String :=
  t.cols.map (fun c => c.1)

/-- Column access df[name]; empty if the column is absent (the pipeline only
accesses the close column after the loader has validated its presence). -/
def Table.getCol (t : Table) (name : String) : List ℚ :=
  match t.cols.find? (fun c => c.1 == name) with
  | some c => c.2
  | none => []

/-- Scalar values a YAML mapping can hold. A boolean is kept distinct from an
integer because Python type checks treat bool as a subtype of int. -/
inductive YamlValue where
  | int (n : ℤ)
  | bool (b : Bool)
  | str (s : String)
  | other
  deriving DecidableEq

/-- Python isinstance(v, int): true for ints and for bools (bool <: int). -/
def YamlValue.isInstInt : YamlValue → Bool
  | .int _ => true
  | .bool _ => true
  | _ => false

/-- Python isinstance(v, str). -/
def YamlValue.isInstStr : YamlValue → Bool
  | .str _ => true
  | _ => false

/-- Integer value of a YAML scalar used in int position: True is 1, False 0. -/
def YamlValue.toInt : YamlValue → ℤ
  | .int n => n
  | .bool b => if b then 1 else 0
  | _ => 0

/-- String value of a YAML scalar used in str position. -/
def YamlValue.toStr : YamlValue → String
  | .str s => s
  | _ => ""

/-- The YAML config file as seen by load_config: whether the path exists, and
the parsed document (none models an empty document or a non-mapping). -/
structure ConfigFile where
  pathExists : Bool
  parsed : Option (List (String × YamlValue))
  deriving DecidableEq

/-- Validated configuration returned by load_config. -/
structure Config where
  seed : ℤ
  window : ℤ
  version : String
  deriving DecidableEq

/-- Field lookup in the parsed YAML mapping. -/
def lookupField (cfg : List (String × YamlValue)) (name : String) : Option YamlValue :=
  (cfg.find? (fun kv => kv.1 == name)).map (fun kv => kv.2)

/-- load_config (run.py lines 42-69): existence check, mapping check, then for
each of seed, window, version in order a presence check and an isinstance type
check, then the window >= 1 value check. -/
def load_config (file : ConfigFile) : Except String Config :=
  if !file.pathExists then .error "Config file not found"
  else
    match file.parsed with
    | none => .error "Config file is empty or not a valid YAML mapping."
    | some cfg =>
      match lookupField cfg "seed" with
      | none => .error "Missing required config field: seed"
      | some vseed =>
        if !vseed.isInstInt then .error "Config field seed must be int"
        else
          match lookupField cfg "window" with
          | none => .error "Missing required config field: window"
          | some vwin =>
            if !vwin.isInstInt then .error "Config field window must be int"
            else
              match lookupField cfg "version" with
              | none => .error "Missing required config field: version"
              | some vver =>
                if !vver.isInstStr then .error "Config field version must be str"
                else if vwin.toInt < 1 then .error "Config field window must be >= 1."
                else .ok { seed := vseed.toInt, window := vwin.toInt, version := vver.toStr }

/-- The CSV input file as seen by load_data: path existence, byte size, and
the table pd.read_csv would produce. -/
structure InputFile where
  pathExists : Bool
  sizeBytes : ℕ
  table : Table
  deriving DecidableEq

/-- load_data (run.py lines 72-90): existence, non-zero size, non-empty parse,
and presence of the close column. -/
def load_data (file : InputFile) : Except String Table :=
  if !file.pathExists then .error "Input file not found"
  else if file.sizeBytes = 0 then .error "Input file is empty"
  else if file.table.nrows = 0 then .error "Input CSV has no data rows."
  else if !(file.table.columns.contains "close") then
    .error "Input CSV missing required column: close"
  else .ok file.table

/-- Rolling mean of a close series, window w with min_periods = w (run.py line
95): at index i the mean of the trailing w values when at least w observations
exist (w <= i+1), undefined (NaN, modelled as none) otherwise. -/
def rollingMean (close : List ℚ) (w : ℕ) : List (Option ℚ) :=
  (List.range close.length).map (fun i =>
    if w ≤ i + 1 then some (((close.drop (i + 1 - w)).take w).sum / (w : ℚ)) else none)

/-- compute_rolling_mean (run.py lines 93-97). -/
def compute_rolling_mean (df : Table) (window : ℕ) : List (Option ℚ) :=
  rollingMean (df.getCol "close") window

/-- generate_signals (run.py lines 100-106): elementwise close > rolling_mean
cast to int; a comparison against NaN is false, so undefined rolling means
yield 0 (the subsequent fillna(0) is a no-op on the already-int series). -/
def generate_signals (close : List ℚ) (rm : List (Option ℚ)) : List ℕ :=
  List.zipWith (fun c m =>
    match m with
    | some v => if v < c then 1 else 0
    | none => 0) close rm

/-- signal.mean() as a rational: sum over length (the pipeline only evaluates
it on non-empty series, the loader having rejected empty tables). -/
def signalRate (signal : List ℕ) : ℚ :=
  (signal.sum : ℚ) / (signal.length : ℚ)

/-- compute_metrics (run.py lines 109-127): the success record. -/
def compute_metrics (df : Table) (signal : List ℕ) (version : String)
    (seed : ℤ) (latency_ms : ℤ) : Record :=
  [("version", .str version),
   ("rows_processed", .int (df.nrows : ℤ)),
   ("metric", .str "signal_rate"),
   ("value", .rat (pyRound (signalRate signal) 4)),
   ("latency_ms", .int latency_ms),
   ("seed", .int seed),
   ("status", .str "success")]

/-- build_error_output (run.py lines 136-141): the error record. -/
def build_error_output (version : String) (error_message : String) : Record :=
  [("version", .str version),
   ("status", .str "error"),
   ("error_message", .str error_message)]

/-- elapsed_ms = int((time.monotonic() - start_time) * 1000) (run.py line 174):
whole milliseconds by truncation. -/
def elapsedMs (t0 t1 : ℚ) : ℤ :=
  pyTrunc ((t1 - t0) * 1000)

/-- Error message numpy raises from np.random.seed for an out-of-range seed. -/
def seedErrorMsg : String := "Seed must be between 0 and 2**32 - 1"

/-- Error message pandas raises from rolling() for a non-integer window. -/
def windowTypeErrorMsg : String := "window must be an integer 0 or greater"

/-- Whether the window object main passes to rolling() is a Python bool. The
window variable in main is the very object stored in the parsed config
mapping, so its boolness is read off the parsed document; pandas is_integer
excludes bool, so rolling() rejects such a window even though load_config
accepted it. -/
def windowRawIsBool (cfgFile : ConfigFile) : Bool :=
  match cfgFile.parsed with
  | some cfg =>
    match lookupField cfg "window" with
    | some (.bool _) => true
    | _ => false
  | none => false

/-- main (run.py lines 144-185) as a pure function of the two file inputs and
the two monotonic clock readings; returns the written record and the process
exit code. version starts at the fallback v1 and is replaced once load_config
succeeds; any failure produces an error record and exit code 1. The failure
points, in program order: load_config (155); np.random.seed (161), which
raises for a seed outside [0, 2^32) — a bool seed is in range, as 0 or 1;
load_data (165); rolling (168), which rejects a bool window object. The
remaining steps cannot fail. -/
def runMain (cfgFile : ConfigFile) (inFile : InputFile) (t0 t1 : ℚ) : Record × ℕ :=
  match load_config cfgFile with
  | .error msg => (build_error_output "v1" msg, 1)
  | .ok config =>
    if config.seed < 0 ∨ 2 ^ 32 ≤ config.seed then
      (build_error_output config.version seedErrorMsg, 1)
    else
      match load_data inFile with
      | .error msg => (build_error_output config.version msg, 1)
      | .ok df =>
        if windowRawIsBool cfgFile then
          (build_error_output config.version windowTypeErrorMsg, 1)
        else
          let rolling := compute_rolling_mean df config.window.toNat
          let signal := generate_signals (df.getCol "close") rolling
          let metrics := compute_metrics df signal config.version config.seed (elapsedMs t0 t1)
          (metrics, 0)

/-- Observable events of one run of main, in program order. -/
inductive Event where
  | clockRead (label : String)
  | log (msg : String)
  | configLoad
  | seedSet
  | dataLoad
  | rollingCompute
  | signalsGenerate
  | metricsAssemble
  | outputWrite
  deriving DecidableEq

/-- Event trace of a fully successful run of main (run.py lines 150-179), with
the log lines each helper emits: the clock is read at line 151, then Job
started is logged at line 152; the second clock read at line 174 is followed
directly by metrics assembly at line 175. -/
def mainTraceSuccess : List Event :=
  [.clockRead "start",
   .log "Job started",
   .configLoad, .log "Config loaded",
   .seedSet, .log "Random seed set",
   .dataLoad, .log "Data loaded",
   .rollingCompute, .log "Rolling mean calculated",
   .signalsGenerate, .log "Signals generated",
   .clockRead "end",
   .metricsAssemble, .log "Metrics",
   .outputWrite, .log "Job completed successfully"]

/-- e1 occurs immediately before e2 somewhere in the trace. -/
def immediatelyPrecedes (tr : List Event) (e1 e2 : Event) : Bool :=
  (tr.zip tr.tail).contains (e1, e2)

/-- generate_data.py: seeds the global RNG with the fixed constant 42, then
builds a 10000-row OHLCV table from a random walk. The numpy samplers are not
embeddable, so the post-seeding draw stream is abstracted as a function from
seed and draw index to a rational; the arithmetic applied to the draws (random
walk cumulative product, high/low perturbations, rounding to 2 decimals) is
kept. The ambient RNG state is a parameter to express that seeding discards
it. -/
def generate_data (draw : ℕ → ℕ → ℚ) (_ambientState : ℕ) : Table :=
  let st : ℕ := 42
  let n : ℕ := 10000
  let returns : ℕ → ℚ := fun k => draw st k
  let close : ℕ → ℚ := fun i =>
    30000 * (((List.range (i + 1)).map (fun j => 1 + returns j)).prod)
  let high : ℕ → ℚ := fun i => close i * (1 + |draw st (n + i)|)
  let low : ℕ → ℚ := fun i => close i * (1 - |draw st (2 * n + i)|)
  let openp : ℕ → ℚ := fun i => low i + (high i - low i) * draw st (3 * n + i)
  let volume : ℕ → ℚ := fun i => pyRound (draw st (4 * n + i)) 2
  { cols :=
      [("open", (List.range n).map (fun i => pyRound (openp i) 2)),
       ("high", (List.range n).map (fun i => pyRound (high i) 2)),
       ("low", (List.range n).map (fun i => pyRound (low i) 2)),
       ("close", (List.range n).map (fun i => pyRound (close i) 2)),
       ("volume", (List.range n).map volume)] }

/-- Arithmetic mean of a list, stated from the specification wording: sum of
the values divided by how many there are. Used to compare the rolling-mean
implementation against the spec formula. -/
def arithMean (l : List ℚ) : ℚ :=
  l.sum / (l.length : ℚ)

/-- The inclusive trailing window close[i-w+1 .. i] of the close series,
stated from the specification wording (0-indexed; for i >= w-1 it has exactly
w elements). -/
def windowSlice (close : List ℚ) (w i : ℕ) : List ℚ :=
  (close.drop (i + 1 - w)).take w

/-- Count of rows whose signal is 1, the spec-side numerator of signal_rate. -/
def countOnes (signal : List ℕ) : ℕ :=
  (signal.filter (fun s => s == 1)).length

/-- A record with its latency_ms field removed, for comparing two runs. -/
def dropLatency (rec : Record) : Record :=
  rec.filter (fun kv => !(kv.1 == "latency_ms"))

/-- Config file of the concrete spec scenario: seed 123, window 2, version v1. -/
def cfgC2 : ConfigFile :=
  { pathExists := true,
    parsed := some [("seed", .int 123), ("window", .int 2), ("version", .str "v1")] }

/-- Input file of the concrete spec scenario: close = [10, 20, 15, 25, 30]. -/
def inC2 : InputFile :=
  { pathExists := true, sizeBytes := 30,
    table := { cols := [("close", [10, 20, 15, 25, 30])] } }

/-- Valid config used to drive the missing-close-column scenario. -/
def cfgC4 : ConfigFile :=
  { pathExists := true,
    parsed := some [("seed", .int 1), ("window", .int 3), ("version", .str "v3")] }

/-- Input file with rows and columns but no close column. -/
def inC4 : InputFile :=
  { pathExists := true, sizeBytes := 12,
    table := { cols := [("open", [1, 2]), ("volume", [3, 4])] } }

/-- Config file whose path does not exist: config loading fails immediately. -/
def cfgC5miss : ConfigFile :=
  { pathExists := false, parsed := none }

/-- Well-formed input used alongside the missing config. -/
def inC5ok : InputFile :=
  { pathExists := true, sizeBytes := 4,
    table := { cols := [("close", [7])] } }

/-- Valid config with version v2, to observe the loaded version in errors. -/
def cfgC5ok : ConfigFile :=
  { pathExists := true,
    parsed := some [("seed", .int 9), ("window", .int 2), ("version", .str "v2")] }

/-- Valid config whose seed -1 is outside the numpy seed range. -/
def cfgC5neg : ConfigFile :=
  { pathExists := true,
    parsed := some [("seed", .int (-1)), ("window", .int 2), ("version", .str "v2n")] }

/-- Valid config whose window is the YAML boolean true: load_config accepts
it but rolling() rejects the bool window object. -/
def cfgC5bool : ConfigFile :=
  { pathExists := true,
    parsed := some [("seed", .int 3), ("window", .bool true), ("version", .str "v4")] }

/-- Input file whose path does not exist: data loading fails after config. -/
def inC5miss : InputFile :=
  { pathExists := false, sizeBytes := 0, table := { cols := [] } }

/-- Valid config with window 5, larger than the short table below. -/
def cfgC8 : ConfigFile :=
  { pathExists := true,
    parsed := some [("seed", .int 0), ("window", .int 5), ("version", .str "v1")] }

/-- Single-row input table, shorter than the window of cfgC8. -/
def inC8 : InputFile :=
  { pathExists := true, sizeBytes := 8,
    table := { cols := [("close", [10])] } }

/-- Config document with window: true (a YAML boolean in an int field). -/
def cfgWinTrue : ConfigFile :=
  { pathExists := true,
    parsed := some [("seed", .int 7), ("window", .bool true), ("version", .str "v1")] }

/-- Config document with window: false. -/
def cfgWinFalse : ConfigFile :=
  { pathExists := true,
    parsed := some [("seed", .int 7), ("window", .bool false), ("version", .str "v1")] }

/-- Config document with seed: true. -/
def cfgSeedTrue : ConfigFile :=
  { pathExists := true,
    parsed := some [("seed", .bool true), ("window", .int 3), ("version", .str "v1")] }

/-- Small table and signal for instantiating the metrics theorem. -/
def tblC3 : Table :=
  { cols := [("close", [10, 20])] }

theorem rollingMean_length (close : List ℚ) (w : ℕ) :
    (rollingMean close w).length = close.length := by
  simp [rollingMean]

theorem rollingMean_getD (close : List ℚ) (w i : ℕ) (hi : i < close.length) :
    (rollingMean close w).getD i none =
      if w ≤ i + 1 then some (((close.drop (i + 1 - w)).take w).sum / (w : ℚ)) else none := by
  rw [List.getD_eq_getElem _ _ (by simpa [rollingMean_length] using hi)]
  simp [rollingMean]

theorem generate_signals_getD (close : List ℚ) (rm : List (Option ℚ)) (i : ℕ)
    (h1 : i < close.length) (h2 : i < rm.length) :
    (generate_signals close rm).getD i 0 =
      match rm.getD i none with
      | some v => if v < close.getD i 0 then 1 else 0
      | none => 0 := by
  have hlen : i < (generate_signals close rm).length := by
    simpa [generate_signals, List.length_zipWith] using ⟨h1, h2⟩
  rw [List.getD_eq_getElem _ _ hlen, List.getD_eq_getElem _ _ h1, List.getD_eq_getElem _ _ h2]
  simp [generate_signals, List.getElem_zipWith]

theorem windowSlice_length (close : List ℚ) (w i : ℕ) (hw : w ≤ i + 1)
    (hi : i < close.length) : (windowSlice close w i).length = w := by
  simp only [windowSlice, List.length_take, List.length_drop]
  omega

theorem sum_eq_countOnes (signal : List ℕ) (h01 : ∀ s ∈ signal, s = 0 ∨ s = 1) :
    signal.sum = countOnes signal := by
  induction signal with
  | nil => rfl
  | cons a l ih =>
    have ha := h01 a (List.mem_cons_self a l)
    have hl : ∀ s ∈ l, s = 0 ∨ s = 1 := fun s hs => h01 s (List.mem_cons_of_mem a hs)
    rcases ha with h | h
    · simp [countOnes, List.filter_cons, h, List.sum_cons, ih hl]
    · simp [countOnes, List.filter_cons, h, List.sum_cons, ih hl]
      omega

theorem roundHalfEven_nonneg (q : ℚ) (h : 0 ≤ q) : 0 ≤ roundHalfEven q := by
  have hf : (0 : ℤ) ≤ ⌊q⌋ := Int.floor_nonneg.mpr h
  unfold roundHalfEven
  split_ifs <;> omega

theorem roundHalfEven_le (q : ℚ) (B : ℤ) (h : q ≤ B) : roundHalfEven q ≤ B := by
  have hfl : ⌊q⌋ ≤ B := le_of_le_of_eq (Int.floor_mono h) (Int.floor_intCast B)
  have hle : (⌊q⌋ : ℚ) ≤ q := Int.floor_le q
  unfold roundHalfEven
  split_ifs with h1 h2 h3
  · exact hfl
  · have hhalf : (⌊q⌋ : ℚ) + 1/2 ≤ q := by
      push_neg at h1
      linarith
    have hlt : (⌊q⌋ : ℚ) < (B : ℚ) := by linarith [h]
    have : ⌊q⌋ < B := by exact_mod_cast hlt
    omega
  · exact hfl
  · have hhalf : (⌊q⌋ : ℚ) + 1/2 ≤ q := by
      push_neg at h1
      linarith
    have hlt : (⌊q⌋ : ℚ) < (B : ℚ) := by linarith [h]
    have : ⌊q⌋ < B := by exact_mod_cast hlt
    omega

theorem pyRound4_unit (q : ℚ) (h0 : 0 ≤ q) (h1 : q ≤ 1) :
    0 ≤ pyRound q 4 ∧ pyRound q 4 ≤ 1 := by
  have hx0 : 0 ≤ q * (10 : ℚ) ^ 4 := by positivity
  have hx1 : q * (10 : ℚ) ^ 4 ≤ ((10000 : ℤ) : ℚ) := by
    push_cast
    nlinarith
  have hr0 := roundHalfEven_nonneg _ hx0
  have hr1 := roundHalfEven_le _ _ hx1
  unfold pyRound
  constructor
  · positivity
  · rw [div_le_one (by norm_num)]
    calc ((roundHalfEven (q * (10:ℚ)^4) : ℚ)) ≤ ((10000 : ℤ) : ℚ) := by exact_mod_cast hr1
      _ = (10 : ℚ) ^ 4 := by norm_num

theorem rollingMean_all_none (close : List ℚ) (w : ℕ) (h : close.length < w) :
    ∀ x ∈ rollingMean close w, x = none := by
  intro x hx
  rw [rollingMean, List.mem_map] at hx
  obtain ⟨i, hi, hfx⟩ := hx
  rw [List.mem_range] at hi
  rw [← hfx, if_neg (by omega)]

theorem generate_signals_all_zero (close : List ℚ) (rm : List (Option ℚ))
    (h : ∀ m ∈ rm, m = none) : ∀ s ∈ generate_signals close rm, s = 0 := by
  induction close generalizing rm with
  | nil => intro s hs; simp [generate_signals] at hs
  | cons a l ih =>
    cases rm with
    | nil => intro s hs; simp [generate_signals] at hs
    | cons m rms =>
      intro s hs
      have hm : m = none := h m (List.mem_cons_self m rms)
      rw [generate_signals, List.zipWith_cons_cons, hm] at hs
      rcases List.mem_cons.mp hs with h0 | h0
      · exact h0
      · exact ih rms (fun x hx => h x (List.mem_cons_of_mem m hx)) s h0

theorem runMain_config_error (cfgFile : ConfigFile) (inFile : InputFile) (t0 t1 : ℚ)
    (msg : String) (h : load_config cfgFile = .error msg) :
    runMain cfgFile inFile t0 t1 = (build_error_output "v1" msg, 1) := by
  simp only [runMain, h]

theorem runMain_seed_error (cfgFile : ConfigFile) (inFile : InputFile) (t0 t1 : ℚ)
    (c : Config) (hc : load_config cfgFile = .ok c)
    (hs : c.seed < 0 ∨ 2 ^ 32 ≤ c.seed) :
    runMain cfgFile inFile t0 t1 = (build_error_output c.version seedErrorMsg, 1) := by
  simp only [runMain, hc]
  rw [if_pos hs]

theorem runMain_data_error (cfgFile : ConfigFile) (inFile : InputFile) (t0 t1 : ℚ)
    (c : Config) (msg : String) (hc : load_config cfgFile = .ok c)
    (hs : ¬(c.seed < 0 ∨ 2 ^ 32 ≤ c.seed)) (hd : load_data inFile = .error msg) :
    runMain cfgFile inFile t0 t1 = (build_error_output c.version msg, 1) := by
  simp only [runMain, hc]
  rw [if_neg hs]
  simp only [hd]

theorem runMain_window_bool_error (cfgFile : ConfigFile) (inFile : InputFile) (t0 t1 : ℚ)
    (c : Config) (df : Table) (hc : load_config cfgFile = .ok c)
    (hs : ¬(c.seed < 0 ∨ 2 ^ 32 ≤ c.seed)) (hd : load_data inFile = .ok df)
    (hwb : windowRawIsBool cfgFile = true) :
    runMain cfgFile inFile t0 t1 = (build_error_output c.version windowTypeErrorMsg, 1) := by
  simp only [runMain, hc]
  rw [if_neg hs]
  simp only [hd]
  rw [if_pos hwb]

theorem runMain_success (cfgFile : ConfigFile) (inFile : InputFile) (t0 t1 : ℚ)
    (c : Config) (df : Table) (hc : load_config cfgFile = .ok c)
    (hs : ¬(c.seed < 0 ∨ 2 ^ 32 ≤ c.seed)) (hd : load_data inFile = .ok df)
    (hwb : windowRawIsBool cfgFile = false) :
    runMain cfgFile inFile t0 t1 =
      (compute_metrics df
        (generate_signals (df.getCol "close") (compute_rolling_mean df c.window.toNat))
        c.version c.seed (elapsedMs t0 t1), 0) := by
  simp only [runMain, hc]
  rw [if_neg hs]
  simp only [hd]
  rw [if_neg (by simp [hwb])]

theorem load_config_bool_window_le_one (file : ConfigFile) (c : Config)
    (h : load_config file = .ok c) (hb : windowRawIsBool file = true) : c.window ≤ 1 := by
  unfold windowRawIsBool at hb
  unfold load_config at h
  split at hb
  case h_2 => simp at hb
  case h_1 cfg heq =>
  split at hb
  case h_2 => simp at hb
  case h_1 b heqw =>
  split at h
  · simp at h
  · split at h
    · simp at h
    case h_2 cfg2 heq2 =>
      rw [heq] at heq2
      injection heq2 with heqc
      subst heqc
      split at h
      · simp at h
      case h_2 vseed heqs =>
        split at h
        · simp at h
        · split at h
          · simp at h
          case h_2 vwin heqw2 =>
            rw [heqw] at heqw2
            injection heqw2 with heqv
            subst heqv
            split at h
            · simp at h
            · split at h
              · simp at h
              · split at h
                · simp at h
                · split at h
                  · simp at h
                  · rw [Except.ok.injEq] at h
                    have hw : c.window = YamlValue.toInt (.bool b) := by
                      rw [← h]
                    rw [hw]
                    cases b <;> simp [YamlValue.toInt]


/-- C1: for every close series and window w >= 1, at each row i the signal
produced by compute_rolling_mean followed by generate_signals is 1 if and only
if i >= w-1 and close[i] strictly exceeds the arithmetic mean of the trailing
window close[i-w+1..i]; rows with undefined rolling mean (i < w-1) and rows
where close[i] does not exceed the mean yield 0. -/
theorem signal_one_iff_close_gt_window_mean (close : List ℚ) (w : ℕ) (hw : 1 ≤ w)
    (i : ℕ) (hi : i < close.length) :
    ((generate_signals close (rollingMean close w)).getD i 0 = 1 ↔
      (w - 1 ≤ i ∧ arithMean (windowSlice close w i) < close.getD i 0)) ∧
    (¬ (w - 1 ≤ i ∧ arithMean (windowSlice close w i) < close.getD i 0) →
      (generate_signals close (rollingMean close w)).getD i 0 = 0) := by
  have hrm : i < (rollingMean close w).length := by simpa [rollingMean_length] using hi
  have hstep := generate_signals_getD close (rollingMean close w) i hi hrm
  rw [rollingMean_getD close w i hi] at hstep
  by_cases hcase : w ≤ i + 1
  · have hW : w - 1 ≤ i := by omega
    have hslice : arithMean (windowSlice close w i) =
        ((close.drop (i + 1 - w)).take w).sum / (w : ℚ) := by
      rw [arithMean, windowSlice_length close w i hcase hi]; rfl
    rw [if_pos hcase] at hstep
    simp only [hstep]
    constructor
    · constructor
      · intro h1
        refine ⟨hW, ?_⟩
        rw [hslice]
        by_contra hnot
        rw [if_neg hnot] at h1
        exact absurd h1 (by norm_num)
      · intro ⟨_, hlt⟩
        rw [hslice] at hlt
        rw [if_pos hlt]
    · intro hneg
      rw [if_neg]
      intro hlt
      exact hneg ⟨hW, by rw [hslice]; exact hlt⟩
  · have hW : ¬ (w - 1 ≤ i) := by omega
    rw [if_neg hcase] at hstep
    simp only [hstep]
    constructor
    · constructor
      · intro h1; exact absurd h1 (by norm_num)
      · intro ⟨hWi, _⟩; exact absurd hWi hW
    · intro _; trivial

/-- Witness for C1 at close = [10, 20], w = 2, i = 1. -/
theorem signal_one_iff_close_gt_window_mean_witness :
    (1 ≤ 2 ∧ 1 < ([10, 20] : List ℚ).length) ∧
    (((generate_signals [10, 20] (rollingMean [10, 20] 2)).getD 1 0 = 1 ↔
      (2 - 1 ≤ 1 ∧ arithMean (windowSlice [10, 20] 2 1) < ([10, 20] : List ℚ).getD 1 0)) ∧
     (¬ (2 - 1 ≤ 1 ∧ arithMean (windowSlice [10, 20] 2 1) < ([10, 20] : List ℚ).getD 1 0) →
      (generate_signals [10, 20] (rollingMean [10, 20] 2)).getD 1 0 = 0)) :=
  ⟨⟨by norm_num, by norm_num⟩,
   signal_one_iff_close_gt_window_mean [10, 20] 2 (by norm_num) 1 (by norm_num)⟩

/-- C2: on the concrete input close = [10, 20, 15, 25, 30] with window 2, the
pipeline computes rolling means [undefined, 15, 17.5, 20, 27.5], signals
[0, 1, 0, 1, 1], and a success record whose value (signal_rate) is 0.6. -/
theorem concrete_scenario_window2 :
    rollingMean [10, 20, 15, 25, 30] 2 =
      [none, some 15, some (35/2), some 20, some (55/2)] ∧
    generate_signals [10, 20, 15, 25, 30] (rollingMean [10, 20, 15, 25, 30] 2) =
      [0, 1, 0, 1, 1] ∧
    lookupJson (runMain cfgC2 inC2 0 0).1 "value" = some (.rat (3/5)) ∧
    lookupJson (runMain cfgC2 inC2 0 0).1 "status" = some (.str "success") ∧
    (runMain cfgC2 inC2 0 0).2 = 0 := by
  have hc : load_config cfgC2 = .ok { seed := 123, window := 2, version := "v1" } := rfl
  have hd : load_data inC2 = .ok { cols := [("close", [10, 20, 15, 25, 30])] } := rfl
  have hw : (2 : ℤ).toNat = 2 := rfl
  have hcol : Table.getCol { cols := [("close", [10, 20, 15, 25, 30])] } "close" =
      [10, 20, 15, 25, 30] := rfl
  have hrm : rollingMean [10, 20, 15, 25, 30] 2 =
      [none, some 15, some (35/2), some 20, some (55/2)] := by
    norm_num [rollingMean, List.range_succ]
  have hsig : generate_signals [10, 20, 15, 25, 30]
      [none, some 15, some (35/2), some 20, some (55/2)] = [0, 1, 0, 1, 1] := by
    norm_num [generate_signals]
  have hval : pyRound (signalRate [0, 1, 0, 1, 1]) 4 = 3/5 := by
    norm_num [pyRound, signalRate, roundHalfEven]
  have he : elapsedMs 0 0 = 0 := by norm_num [elapsedMs, pyTrunc]
  have hrun : runMain cfgC2 inC2 0 0 =
      (compute_metrics { cols := [("close", [10, 20, 15, 25, 30])] }
        [0, 1, 0, 1, 1] "v1" 123 0, 0) := by
    rw [runMain_success cfgC2 inC2 0 0 { seed := 123, window := 2, version := "v1" }
      { cols := [("close", [10, 20, 15, 25, 30])] } hc (by norm_num) hd rfl]
    simp only [compute_rolling_mean, hcol, hw, hrm, hsig, he]
  have h3 : lookupJson (runMain cfgC2 inC2 0 0).1 "value" =
      some (.rat (pyRound (signalRate [0, 1, 0, 1, 1]) 4)) := by
    rw [hrun]; rfl
  have h4 : lookupJson (runMain cfgC2 inC2 0 0).1 "status" = some (.str "success") := by
    rw [hrun]; rfl
  refine ⟨hrm, by rw [hrm]; exact hsig, ?_, h4, by rw [hrun]⟩
  rw [h3, hval]

/-- C3: for every non-empty table and aligned 0/1 signal series, the success
record reports rows_processed equal to the table row count and value equal to
the count of signal-1 rows divided by rows_processed, rounded to 4 decimal
places, and this value lies in [0, 1]. -/
theorem success_value_is_rounded_signal_fraction (df : Table) (signal : List ℕ)
    (version : String) (seed lat : ℤ)
    (hlen : signal.length = df.nrows) (hne : df.nrows ≠ 0)
    (h01 : ∀ s ∈ signal, s = 0 ∨ s = 1) :
    lookupJson (compute_metrics df signal version seed lat) "rows_processed" =
      some (.int (df.nrows : ℤ)) ∧
    lookupJson (compute_metrics df signal version seed lat) "value" =
      some (.rat (pyRound ((countOnes signal : ℚ) / (df.nrows : ℚ)) 4)) ∧
    0 ≤ pyRound ((countOnes signal : ℚ) / (df.nrows : ℚ)) 4 ∧
    pyRound ((countOnes signal : ℚ) / (df.nrows : ℚ)) 4 ≤ 1 := by
  have hrate : signalRate signal = (countOnes signal : ℚ) / (df.nrows : ℚ) := by
    rw [signalRate, sum_eq_countOnes signal h01, hlen]
  have hcount : countOnes signal ≤ df.nrows := by
    rw [← hlen]
    exact List.length_filter_le _ signal
  have hq0 : 0 ≤ (countOnes signal : ℚ) / (df.nrows : ℚ) := by positivity
  have hq1 : (countOnes signal : ℚ) / (df.nrows : ℚ) ≤ 1 := by
    rw [div_le_one (by exact_mod_cast Nat.pos_of_ne_zero hne)]
    exact_mod_cast hcount
  refine ⟨rfl, ?_, (pyRound4_unit _ hq0 hq1).1, (pyRound4_unit _ hq0 hq1).2⟩
  have base : lookupJson (compute_metrics df signal version seed lat) "value" =
      some (.rat (pyRound (signalRate signal) 4)) := rfl
  rw [hrate] at base
  exact base

/-- Witness for C3 at a 2-row table with signals [0, 1]. -/
theorem success_value_is_rounded_signal_fraction_witness :
    (([0, 1] : List ℕ).length = tblC3.nrows ∧ tblC3.nrows ≠ 0 ∧
      (∀ s ∈ ([0, 1] : List ℕ), s = 0 ∨ s = 1)) ∧
    (lookupJson (compute_metrics tblC3 [0, 1] "v1" 0 0) "rows_processed" =
      some (.int (tblC3.nrows : ℤ)) ∧
    lookupJson (compute_metrics tblC3 [0, 1] "v1" 0 0) "value" =
      some (.rat (pyRound ((countOnes [0, 1] : ℚ) / (tblC3.nrows : ℚ)) 4)) ∧
    0 ≤ pyRound ((countOnes [0, 1] : ℚ) / (tblC3.nrows : ℚ)) 4 ∧
    pyRound ((countOnes [0, 1] : ℚ) / (tblC3.nrows : ℚ)) 4 ≤ 1) :=
  ⟨⟨by decide, by decide, by decide⟩,
   success_value_is_rounded_signal_fraction tblC3 [0, 1] "v1" 0 0
     (by decide) (by decide) (by decide)⟩

/-- C4: with a valid config and an existing, non-empty input whose table lacks
a close column, the run exits with code 1 and writes a record with status
error and no rows_processed or value fields. -/
theorem missing_close_column_error_record (cfgFile : ConfigFile) (inFile : InputFile)
    (t0 t1 : ℚ) (c : Config)
    (hc : load_config cfgFile = .ok c)
    (hex : inFile.pathExists = true) (hsz : inFile.sizeBytes ≠ 0)
    (hrows : inFile.table.nrows ≠ 0)
    (hclose : inFile.table.columns.contains "close" = false) :
    (runMain cfgFile inFile t0 t1).2 = 1 ∧
    lookupJson (runMain cfgFile inFile t0 t1).1 "status" = some (.str "error") ∧
    lookupJson (runMain cfgFile inFile t0 t1).1 "rows_processed" = none ∧
    lookupJson (runMain cfgFile inFile t0 t1).1 "value" = none := by
  have hmem : "close" ∉ inFile.table.columns := by simpa using hclose
  have hd : load_data inFile = .error "Input CSV missing required column: close" := by
    simp [load_data, hex, hsz, hrows, hmem]
  by_cases hs : c.seed < 0 ∨ 2 ^ 32 ≤ c.seed
  · have hrun : runMain cfgFile inFile t0 t1 =
        (build_error_output c.version seedErrorMsg, 1) := by
      simp only [runMain, hc]
      rw [if_pos hs]
    rw [hrun]
    exact ⟨rfl, rfl, rfl, rfl⟩
  · have hrun : runMain cfgFile inFile t0 t1 =
        (build_error_output c.version "Input CSV missing required column: close", 1) := by
      simp only [runMain, hc]
      rw [if_neg hs]
      simp only [hd]
    rw [hrun]
    exact ⟨rfl, rfl, rfl, rfl⟩

/-- Witness for C4: a valid config and a 2-row table without a close column. -/
theorem missing_close_column_error_record_witness :
    (load_config cfgC4 = .ok { seed := 1, window := 3, version := "v3" } ∧
      inC4.pathExists = true ∧ inC4.sizeBytes ≠ 0 ∧ inC4.table.nrows ≠ 0 ∧
      inC4.table.columns.contains "close" = false) ∧
    ((runMain cfgC4 inC4 0 0).2 = 1 ∧
     lookupJson (runMain cfgC4 inC4 0 0).1 "status" = some (.str "error") ∧
     lookupJson (runMain cfgC4 inC4 0 0).1 "rows_processed" = none ∧
     lookupJson (runMain cfgC4 inC4 0 0).1 "value" = none) :=
  ⟨⟨rfl, rfl, by decide, by decide, rfl⟩,
   missing_close_column_error_record cfgC4 inC4 0 0
     { seed := 1, window := 3, version := "v3" } rfl rfl (by decide) (by decide) rfl⟩

/-- C5: on every failure the error record version field follows the two-tier
rule: the fallback v1 when config loading itself failed, and the loaded
config version when config loading completed before the failure — whether the
failure is at the seed-setting step (out-of-range seed), at data loading, or
at the rolling window type check; the last conjunct states the rule for every
failing run at once. -/
theorem error_record_version_fallback_rule (cfgFile : ConfigFile) (inFile : InputFile)
    (t0 t1 : ℚ) :
    (∀ msg, load_config cfgFile = .error msg →
      runMain cfgFile inFile t0 t1 = (build_error_output "v1" msg, 1) ∧
      lookupJson (runMain cfgFile inFile t0 t1).1 "version" = some (.str "v1")) ∧
    (∀ c, load_config cfgFile = .ok c → (c.seed < 0 ∨ 2 ^ 32 ≤ c.seed) →
      runMain cfgFile inFile t0 t1 = (build_error_output c.version seedErrorMsg, 1) ∧
      lookupJson (runMain cfgFile inFile t0 t1).1 "version" = some (.str c.version)) ∧
    (∀ c msg, load_config cfgFile = .ok c → ¬(c.seed < 0 ∨ 2 ^ 32 ≤ c.seed) →
      load_data inFile = .error msg →
      runMain cfgFile inFile t0 t1 = (build_error_output c.version msg, 1) ∧
      lookupJson (runMain cfgFile inFile t0 t1).1 "version" = some (.str c.version)) ∧
    (∀ c df, load_config cfgFile = .ok c → ¬(c.seed < 0 ∨ 2 ^ 32 ≤ c.seed) →
      load_data inFile = .ok df → windowRawIsBool cfgFile = true →
      runMain cfgFile inFile t0 t1 =
        (build_error_output c.version windowTypeErrorMsg, 1) ∧
      lookupJson (runMain cfgFile inFile t0 t1).1 "version" = some (.str c.version)) ∧
    ((runMain cfgFile inFile t0 t1).2 = 1 →
      ((∃ msg, load_config cfgFile = .error msg) ∧
        lookupJson (runMain cfgFile inFile t0 t1).1 "version" = some (.str "v1")) ∨
      (∃ c, load_config cfgFile = .ok c ∧
        lookupJson (runMain cfgFile inFile t0 t1).1 "version" = some (.str c.version))) := by
  refine ⟨?_, ?_, ?_, ?_, ?_⟩
  · intro msg h
    have hrun := runMain_config_error cfgFile inFile t0 t1 msg h
    exact ⟨hrun, by rw [hrun]; rfl⟩
  · intro c h hs
    have hrun := runMain_seed_error cfgFile inFile t0 t1 c h hs
    exact ⟨hrun, by rw [hrun]; rfl⟩
  · intro c msg h hs hd
    have hrun := runMain_data_error cfgFile inFile t0 t1 c msg h hs hd
    exact ⟨hrun, by rw [hrun]; rfl⟩
  · intro c df h hs hd hwb
    have hrun := runMain_window_bool_error cfgFile inFile t0 t1 c df h hs hd hwb
    exact ⟨hrun, by rw [hrun]; rfl⟩
  · intro hexit
    cases hcfg : load_config cfgFile with
    | error msg =>
      have hrun := runMain_config_error cfgFile inFile t0 t1 msg hcfg
      exact Or.inl ⟨⟨msg, rfl⟩, by rw [hrun]; rfl⟩
    | ok c =>
      refine Or.inr ⟨c, rfl, ?_⟩
      by_cases hs : c.seed < 0 ∨ 2 ^ 32 ≤ c.seed
      · rw [runMain_seed_error cfgFile inFile t0 t1 c hcfg hs]; rfl
      · cases hdata : load_data inFile with
        | error msg =>
          rw [runMain_data_error cfgFile inFile t0 t1 c msg hcfg hs hdata]; rfl
        | ok df =>
          cases hwb : windowRawIsBool cfgFile with
          | true =>
            rw [runMain_window_bool_error cfgFile inFile t0 t1 c df hcfg hs hdata hwb]
            rfl
          | false =>
            exfalso
            have hrun0 : (runMain cfgFile inFile t0 t1).2 = 0 := by
              rw [runMain_success cfgFile inFile t0 t1 c df hcfg hs hdata hwb]
            omega

/-- Witness for C5: a missing config file yields version v1; a config loaded
with seed -1 fails at the seeding step with the loaded version v2n; a missing
input file after a config with version v2 yields version v2; a bool window
with loaded version v4 fails at the rolling step with version v4. -/
theorem error_record_version_fallback_rule_witness :
    (load_config cfgC5miss = .error "Config file not found" ∧
      runMain cfgC5miss inC5ok 0 0 =
        (build_error_output "v1" "Config file not found", 1)) ∧
    (load_config cfgC5neg = .ok { seed := -1, window := 2, version := "v2n" } ∧
      ((-1 : ℤ) < 0 ∨ (2 : ℤ) ^ 32 ≤ -1) ∧
      runMain cfgC5neg inC5ok 0 0 = (build_error_output "v2n" seedErrorMsg, 1)) ∧
    (load_config cfgC5ok = .ok { seed := 9, window := 2, version := "v2" } ∧
      load_data inC5miss = .error "Input file not found" ∧
      runMain cfgC5ok inC5miss 0 0 =
        (build_error_output "v2" "Input file not found", 1)) ∧
    (load_config cfgC5bool = .ok { seed := 3, window := 1, version := "v4" } ∧
      windowRawIsBool cfgC5bool = true ∧
      runMain cfgC5bool inC5ok 0 0 =
        (build_error_output "v4" windowTypeErrorMsg, 1)) :=
  ⟨⟨rfl,
    ((error_record_version_fallback_rule cfgC5miss inC5ok 0 0).1
      "Config file not found" rfl).1⟩,
   ⟨rfl, by norm_num,
    ((error_record_version_fallback_rule cfgC5neg inC5ok 0 0).2.1
      { seed := -1, window := 2, version := "v2n" } rfl (by norm_num)).1⟩,
   ⟨rfl, rfl,
    ((error_record_version_fallback_rule cfgC5ok inC5miss 0 0).2.2.1
      { seed := 9, window := 2, version := "v2" } "Input file not found" rfl
      (by norm_num) rfl).1⟩,
   ⟨rfl, rfl,
    ((error_record_version_fallback_rule cfgC5bool inC5ok 0 0).2.2.2.1
      { seed := 3, window := 1, version := "v4" } { cols := [("close", [7])] }
      rfl (by norm_num) rfl rfl).1⟩⟩

/-- C6: two runs on the same config and input differ at most in latency_ms:
the records agree after dropping that field, and the exit codes agree; the
clock readings are the only inputs that may vary between the runs. -/
theorem run_deterministic_except_latency (cfgFile : ConfigFile) (inFile : InputFile)
    (t0 t1 u0 u1 : ℚ) :
    dropLatency (runMain cfgFile inFile t0 t1).1 =
      dropLatency (runMain cfgFile inFile u0 u1).1 ∧
    (runMain cfgFile inFile t0 t1).2 = (runMain cfgFile inFile u0 u1).2 := by
  cases hc : load_config cfgFile with
  | error msg =>
    rw [runMain_config_error cfgFile inFile t0 t1 msg hc,
      runMain_config_error cfgFile inFile u0 u1 msg hc]
    exact ⟨rfl, rfl⟩
  | ok c =>
    by_cases hs : c.seed < 0 ∨ 2 ^ 32 ≤ c.seed
    · rw [runMain_seed_error cfgFile inFile t0 t1 c hc hs,
        runMain_seed_error cfgFile inFile u0 u1 c hc hs]
      exact ⟨rfl, rfl⟩
    · cases hd : load_data inFile with
      | error msg =>
        rw [runMain_data_error cfgFile inFile t0 t1 c msg hc hs hd,
          runMain_data_error cfgFile inFile u0 u1 c msg hc hs hd]
        exact ⟨rfl, rfl⟩
      | ok df =>
        cases hwb : windowRawIsBool cfgFile with
        | true =>
          rw [runMain_window_bool_error cfgFile inFile t0 t1 c df hc hs hd hwb,
            runMain_window_bool_error cfgFile inFile u0 u1 c df hc hs hd hwb]
          exact ⟨rfl, rfl⟩
        | false =>
          rw [runMain_success cfgFile inFile t0 t1 c df hc hs hd hwb,
            runMain_success cfgFile inFile u0 u1 c df hc hs hd hwb]
          exact ⟨rfl, rfl⟩

/-- C7 counterexample: the claim places the start of the latency interval
immediately after the Job started log line, but in the success trace the
start clock read immediately precedes that log line, so no position has the
log line directly followed by the start clock read. -/
theorem latency_starts_after_log_counterexample :
    ¬(immediatelyPrecedes mainTraceSuccess (.log "Job started") (.clockRead "start") = true ∧
      immediatelyPrecedes mainTraceSuccess (.clockRead "end") .metricsAssemble = true) := by
  decide

/-- C7 amended: the latency interval starts immediately before the Job
started log line (the clock is read first, then the line is logged), ends
immediately before metrics assembly, and for monotone clock readings the
reported value is the whole-millisecond floor of the elapsed time. -/
theorem latency_interval_clock_ordering :
    immediatelyPrecedes mainTraceSuccess (.clockRead "start") (.log "Job started") = true ∧
    immediatelyPrecedes mainTraceSuccess (.clockRead "end") .metricsAssemble = true ∧
    ∀ t0 t1 : ℚ, t0 ≤ t1 → elapsedMs t0 t1 = ⌊(t1 - t0) * 1000⌋ := by
  refine ⟨by decide, by decide, ?_⟩
  intro t0 t1 h
  rw [elapsedMs, pyTrunc, if_pos (by nlinarith)]

/-- Witness for C7 amended at clock readings 0 and 1/2. -/
theorem latency_interval_clock_ordering_witness :
    (0 : ℚ) ≤ 1/2 ∧ elapsedMs 0 (1/2) = 500 :=
  ⟨by norm_num,
   by rw [latency_interval_clock_ordering.2.2 0 (1/2) (by norm_num)]; norm_num⟩

/-- C8: with a valid config whose loaded seed is inside the numpy seed range,
a non-empty table with a close column, and fewer rows than the window, the
run still succeeds with exit code 0; every rolling mean entry is undefined,
every signal is 0, and the record value is 0. (A bool window cannot occur
under these hypotheses: load_config would have accepted it only as 1, and no
non-empty table has fewer rows than 1.) -/
theorem short_table_all_zero_success (cfgFile : ConfigFile) (inFile : InputFile)
    (t0 t1 : ℚ) (c : Config)
    (hc : load_config cfgFile = .ok c)
    (hseed : ¬(c.seed < 0 ∨ 2 ^ 32 ≤ c.seed))
    (hex : inFile.pathExists = true) (hsz : inFile.sizeBytes ≠ 0)
    (hrows : inFile.table.nrows ≠ 0)
    (hclose : inFile.table.columns.contains "close" = true)
    (hlen : (inFile.table.getCol "close").length = inFile.table.nrows)
    (hwin : inFile.table.nrows < c.window.toNat) :
    (runMain cfgFile inFile t0 t1).2 = 0 ∧
    (∀ x ∈ compute_rolling_mean inFile.table c.window.toNat, x = none) ∧
    (∀ s ∈ generate_signals (inFile.table.getCol "close")
        (compute_rolling_mean inFile.table c.window.toNat), s = 0) ∧
    lookupJson (runMain cfgFile inFile t0 t1).1 "value" = some (.rat 0) ∧
    lookupJson (runMain cfgFile inFile t0 t1).1 "status" = some (.str "success") := by
  have hmem : "close" ∈ inFile.table.columns := by simpa using hclose
  have hd : load_data inFile = .ok inFile.table := by
    simp [load_data, hex, hsz, hrows, hmem]
  have hwb : windowRawIsBool cfgFile = false := by
    cases hq : windowRawIsBool cfgFile
    · rfl
    · exfalso
      have hle := load_config_bool_window_le_one cfgFile c hc hq
      omega
  have hlt : (inFile.table.getCol "close").length < c.window.toNat := by omega
  have hnone := rollingMean_all_none (inFile.table.getCol "close") c.window.toNat hlt
  have hzero := generate_signals_all_zero (inFile.table.getCol "close")
    (rollingMean (inFile.table.getCol "close") c.window.toNat) hnone
  have hsum : (generate_signals (inFile.table.getCol "close")
      (rollingMean (inFile.table.getCol "close") c.window.toNat)).sum = 0 :=
    List.sum_eq_zero hzero
  have hrate : signalRate (generate_signals (inFile.table.getCol "close")
      (rollingMean (inFile.table.getCol "close") c.window.toNat)) = 0 := by
    rw [signalRate, hsum]
    simp
  have hzeroR : pyRound (0 : ℚ) 4 = 0 := by
    norm_num [pyRound, roundHalfEven]
  have hrun : runMain cfgFile inFile t0 t1 =
      (compute_metrics inFile.table
        (generate_signals (inFile.table.getCol "close")
          (rollingMean (inFile.table.getCol "close") c.window.toNat))
        c.version c.seed (elapsedMs t0 t1), 0) :=
    runMain_success cfgFile inFile t0 t1 c inFile.table hc hseed hd hwb
  refine ⟨by rw [hrun], hnone, hzero, ?_, by rw [hrun]; rfl⟩
  have base : lookupJson (runMain cfgFile inFile t0 t1).1 "value" =
      some (.rat (pyRound (signalRate (generate_signals (inFile.table.getCol "close")
        (rollingMean (inFile.table.getCol "close") c.window.toNat))) 4)) := by
    rw [hrun]; rfl
  rw [hrate, hzeroR] at base
  exact base

/-- Witness for C8: window 5 against a single-row table, seed 0 in range. -/
theorem short_table_all_zero_success_witness :
    (load_config cfgC8 = .ok { seed := 0, window := 5, version := "v1" } ∧
     ¬((0 : ℤ) < 0 ∨ (2 : ℤ) ^ 32 ≤ 0) ∧
     inC8.pathExists = true ∧ inC8.sizeBytes ≠ 0 ∧ inC8.table.nrows ≠ 0 ∧
     inC8.table.columns.contains "close" = true ∧
     (inC8.table.getCol "close").length = inC8.table.nrows ∧
     inC8.table.nrows < (5 : ℤ).toNat) ∧
    ((runMain cfgC8 inC8 0 0).2 = 0 ∧
     (∀ x ∈ compute_rolling_mean inC8.table (5 : ℤ).toNat, x = none) ∧
     (∀ s ∈ generate_signals (inC8.table.getCol "close")
        (compute_rolling_mean inC8.table (5 : ℤ).toNat), s = 0) ∧
     lookupJson (runMain cfgC8 inC8 0 0).1 "value" = some (.rat 0) ∧
     lookupJson (runMain cfgC8 inC8 0 0).1 "status" = some (.str "success")) :=
  ⟨⟨rfl, by norm_num, rfl, by decide, by decide, rfl, by decide, by decide⟩,
   short_table_all_zero_success cfgC8 inC8 0 0 { seed := 0, window := 5, version := "v1" }
     rfl (by norm_num) rfl (by decide) (by decide) rfl (by decide) (by decide)⟩

/-- C9: load_config accepts boolean values in the integer fields because a
Python bool passes the isinstance int check: window true is accepted and used
as window 1, seed true is accepted as seed 1, while window false passes the
type check and is rejected only by the window >= 1 value check. -/
theorem bool_config_values_pass_int_check :
    load_config cfgWinTrue = .ok { seed := 7, window := 1, version := "v1" } ∧
    load_config cfgWinFalse = .error "Config field window must be >= 1." ∧
    load_config cfgSeedTrue = .ok { seed := 1, window := 3, version := "v1" } :=
  ⟨rfl, rfl, rfl⟩

/-- C10: generate_data seeds the RNG with the fixed constant 42 before any
sampling, so its output does not depend on the ambient RNG state; it always
has exactly 10000 rows and columns open, high, low, close, volume, hence it
is non-empty and carries a close column, the Data Loader invariants. -/
theorem generate_data_shape_and_determinism (draw : ℕ → ℕ → ℚ) (a1 a2 : ℕ) :
    generate_data draw a1 = generate_data draw a2 ∧
    (generate_data draw a1).nrows = 10000 ∧
    (generate_data draw a1).columns = ["open", "high", "low", "close", "volume"] ∧
    (generate_data draw a1).nrows ≠ 0 ∧
    (generate_data draw a1).columns.contains "close" = true := by
  have hn : (generate_data draw a1).nrows = 10000 := by
    simp [generate_data, Table.nrows]
  exact ⟨rfl, hn, rfl, by omega, rfl⟩
